import Mathlib

/-!
Verification of the TrajectoryAnalyzer ingestion/classification/statistics
pipeline against its specification.

The Python sources in `backend/` are shallowly embedded as executable Lean
definitions:

* `backend/analyzers/failure_analyzer.py` — the rule-chain failure classifier;
* `backend/services/analysis_service.py`, `backend/routes/questions.py`,
  `backend/services/training_stats_service.py`,
  `backend/routes/analysis_stats.py`,
  `backend/services/visualization_service.py` — the statistics code;
* `backend/services/import_service.py` — record normalization, deduplicating
  batch import, and the streaming multi-line JSON record extractor.

Modelling conventions: Python dicts whose relevant keys are known are
structures of `Option` fields (`.get(k, d)` is `Option.getD`, direct
subscripting `d[k]` is `Except`-valued and models a possible `KeyError`);
Python floats are `ℚ` (all numeric values in the verified claims are exact
decimals); `json.loads` is an explicit function parameter of the extractor,
instantiated with an executable mini JSON parser for concrete runs; Python
`str.strip`/`str.lower` are the character-wise `pyStrip`/`pyLower` below (the
texts in the claims contain only characters on which the semantics agree).
-/

/-! ## Transcript messages

A transcript message is a Python dict; the classifier reads only its `role`
and `content` keys, so it is modelled as a pair of optional string fields.
An absent field models an absent key. -/

/-- The observable effect of a Python `KeyError`. -/
inductive PyErr where
  | keyError
deriving DecidableEq, Repr

structure Step where
  role : Option String
  content : Option String
deriving DecidableEq, Repr

/-- Python `needle in hay` substring test on strings (as char lists). -/
def infixOf (needle : List Char) : List Char → Bool
  | [] => needle.isEmpty
  | c :: t => needle.isPrefixOf (c :: t) || infixOf needle t

/-- Python `needle in hay` substring test on strings. -/
def pyIn (needle hay : String) : Bool := infixOf needle.toList hay.toList

/-- Python `hay.count(needle)` for nonempty `needle`: non-overlapping
occurrences scanned left to right.  Structural recursion on a fuel that
bounds the number of scanned positions (each iteration consumes at least one
character, so `hay.length` fuel is enough). -/
def countOccAux (needle : List Char) : Nat → List Char → Nat
  | 0, _ => 0
  | _, [] => 0
  | fuel + 1, c :: t =>
    if needle.isPrefixOf (c :: t) then
      countOccAux needle fuel (List.drop (needle.length - 1) t) + 1
    else
      countOccAux needle fuel t

def countOcc (needle hay : List Char) : Nat := countOccAux needle hay.length hay

/-- Python `hay.count(needle)` on strings. -/
def pyCount (hay needle : String) : Nat := countOcc needle.toList hay.toList

/-- Python `s.lower()`, character by character (the texts in play are ASCII
or characters on which `lower` is the identity). -/
def pyLower (s : String) : String := ⟨s.data.map Char.toLower⟩

/-- Python `s.strip()`: drop whitespace from both ends. -/
def pyStrip (s : String) : String :=
  ⟨((s.data.dropWhile Char.isWhitespace).reverse.dropWhile Char.isWhitespace).reverse⟩

/-! ## Model of the regex `<\w+>.*?</\w+>` with `re.DOTALL`

`re.search` of this pattern succeeds iff somewhere in the text an opening tag
`<` word-chars `>` is followed (at any distance, any characters between) by a
closing tag `</` word-chars `>`.  Word characters are modelled as ASCII
alphanumerics and underscore (the transcripts under analysis are ASCII). -/

def isWordChar (c : Char) : Bool := c.isAlphanum || c = '_'

/-- Consume one-or-more word characters from the front; return the rest. -/
def wordRun : List Char → Option (List Char)
  | [] => none
  | c :: t => if isWordChar c then some (t.dropWhile isWordChar) else none

/-- Does `<` word-chars `>` match at the front?  Returns the remainder. -/
def openTagAt : List Char → Option (List Char)
  | '<' :: t =>
    match wordRun t with
    | some ('>' :: r) => some r
    | _ => none
  | _ => none

/-- Does `</` word-chars `>` match at the front? -/
def closeTagAt : List Char → Bool
  | '<' :: '/' :: t =>
    match wordRun t with
    | some ('>' :: _) => true
    | _ => false
  | _ => false

/-- Is there a closing tag anywhere in the text? -/
def hasCloseTagFrom : List Char → Bool
  | [] => false
  | c :: t => closeTagAt (c :: t) || hasCloseTagFrom t

/-- Success of `re.search(r"<\w+>.*?</\w+>", s, re.DOTALL)`. -/
def hasToolPattern : List Char → Bool
  | [] => false
  | c :: t =>
    (match openTagAt (c :: t) with
     | some r => hasCloseTagFrom r
     | none => false) || hasToolPattern t

/-! ## The classifier rule functions (`failure_analyzer.py`) -/

/-- The analysis context; the rule functions only read `max_turn_limit`
(present in every call: `FailureAnalysisEngine.analyze` merges the engine
config into the per-call context). -/
structure AnalyzeCtx where
  maxTurnLimit : Nat
deriving DecidableEq, Repr

/-- Python `step.get('role', '')`. -/
def Step.roleD (s : Step) : String := s.role.getD ""

/-- Python `str(step.get('content', ''))` (contents are modelled as strings). -/
def Step.contentD (s : Step) : String := s.content.getD ""

def STRONG_INTENT_KEYWORDS : List String :=
  ["<ctrl3605>", "</ctrl3613>", "[tool]", "<function>"]

/-- Embeds `check_format_error`: first assistant message with tool-call intent but no
structurally valid tag pair decides the result. -/
def checkFormatError (steps : List Step) (_ctx : AnalyzeCtx) :
    Option (String × String) :=
  match steps with
  | [] => none
  | s :: rest =>
    if s.roleD ≠ "assistant" then checkFormatError rest _ctx
    else if ¬ (STRONG_INTENT_KEYWORDS.any (fun k => pyIn k s.contentD)) then
      checkFormatError rest _ctx
    else if hasToolPattern s.contentD.toList then checkFormatError rest _ctx
    else if pyCount s.contentD "<ctrl3614>" ≠ pyCount s.contentD "</ctrl3615>" then
      some ("1. Trajectory Anomaly (Format)", "1.1 Mismatched Tool Tags")
    else
      some ("1. Trajectory Anomaly (Format)", "1.3 Invalid Tool Format")

def ERROR_KEYWORDS : List String :=
  ["tool call parsing failed", "execution failed", "error:"]

/-- Embeds `check_repeated_tool_error`. -/
def checkRepeatedToolError (steps : List Step) (_ctx : AnalyzeCtx) :
    Option (String × String) :=
  match steps.getLast? with
  | none => none
  | some last =>
    if decide (steps.countP (fun st =>
         (st.roleD == "tool" || st.roleD == "user") &&
           ERROR_KEYWORDS.any (fun k => pyIn k (pyStrip (pyLower st.contentD)))) > 2) &&
       !(pyIn "finish" (pyLower last.contentD) &&
         pyIn "<ctrl3616>" (pyLower last.contentD)) then
      some ("1. Trajectory Anomaly (Loop)",
            "3.2 Lengthy due to Repeated Tool Failures (> 2 errors)")
    else
      none

/-- The list comprehension `[s['content'] for s in steps if s['role'] == 'assistant']`:
direct subscripting, so a missing key raises (`Except.error`), at the first
offending element. -/
def assistantContents : List Step → Except PyErr (List String)
  | [] => .ok []
  | s :: rest =>
    match s.role with
    | none => .error .keyError
    | some r =>
      if r = "assistant" then
        match s.content with
        | none => .error .keyError
        | some c => do
          let cs ← assistantContents rest
          return c :: cs
      else assistantContents rest

/-- Python `len(set(l)) == 1`. -/
def allSameOne : List String → Bool
  | [] => false
  | c :: rest => rest.all (· == c)

/-- Embeds `check_repeater`: fallible because of the direct subscripting. -/
def checkRepeater (steps : List Step) (_ctx : AnalyzeCtx) :
    Except PyErr (Option (String × String)) :=
  if steps.length < 4 then .ok none
  else
    match assistantContents steps with
    | .error e => .error e
    | .ok cs =>
      if 3 ≤ (cs.drop (cs.length - 3)).length ∧ allSameOne (cs.drop (cs.length - 3)) then
        .ok (some ("1. Trajectory Anomaly (Loop)", "3.1 Repetitive Output / Repeater"))
      else
        .ok none

/-- Embeds `check_hanging_assistant`. -/
def checkHangingAssistant (steps : List Step) (_ctx : AnalyzeCtx) :
    Option (String × String) :=
  match steps.getLast? with
  | none => none
  | some last =>
    if last.roleD ≠ "assistant" then none
    else if pyIn "<ctrl3617>" last.contentD then none
    else
      some ("1. Trajectory Anomaly (Truncated)",
            "4.3 No Action after Thought / Abnormal Stop (Possible Truncation)")

/-- Embeds `check_unverified_success`. -/
def checkUnverifiedSuccess (steps : List Step) (_ctx : AnalyzeCtx) :
    Option (String × String) :=
  match steps.getLast? with
  | none => none
  | some last =>
    if last.roleD ≠ "assistant" then none
    else
      if (pyIn "<ctrl3618>" (pyLower last.contentD) &&
          pyIn "finish" (pyLower last.contentD)) &&
         (pyIn "假设" (pyLower last.contentD) || pyIn "无法验证" (pyLower last.contentD) ||
          pyIn "assume" (pyLower last.contentD)) then
        some ("2. Trajectory Error (Logic)",
              "7.1 Model Overconfidence / False Positive Finish")
      else
        none

/-- Embeds `check_context_limit`. -/
def checkContextLimit (steps : List Step) (ctx : AnalyzeCtx) :
    Option (String × String) :=
  if steps.length > ctx.maxTurnLimit * 2 then
    some ("1. Trajectory Anomaly (Length)", "3.3 Turn Limit Exceeded")
  else
    none

/-! ## The engine (`FailureAnalysisEngine` + `setup_engine`) -/

/-- A registered rule.  All rule functions share the fallible type; the ones
that only use `.get` access are total and are wrapped with `.ok`. -/
structure RuleEntry where
  name : String
  prio : Nat
  func : List Step → AnalyzeCtx → Except PyErr (Option (String × String))

def ruleFormat : RuleEntry :=
  ⟨"Format Error", 10, fun steps ctx => .ok (checkFormatError steps ctx)⟩
def ruleToolError : RuleEntry :=
  ⟨"Tool Exec Error", 20, fun steps ctx => .ok (checkRepeatedToolError steps ctx)⟩
def ruleRepeater : RuleEntry :=
  ⟨"Repeater", 30, fun steps ctx => checkRepeater steps ctx⟩
def ruleHanging : RuleEntry :=
  ⟨"Hanging", 45, fun steps ctx => .ok (checkHangingAssistant steps ctx)⟩
def ruleOverconfidence : RuleEntry :=
  ⟨"Overconfidence", 50, fun steps ctx => .ok (checkUnverifiedSuccess steps ctx)⟩
def ruleContextLimit : RuleEntry :=
  ⟨"Context Limit", 40, fun steps ctx => .ok (checkContextLimit steps ctx)⟩

/-- Stable insertion of a rule behind all rules of priority ≤ its own:
models `list.sort(key=priority)` being re-run after each `register_rule`. -/
def insertRule (r : RuleEntry) : List RuleEntry → List RuleEntry
  | [] => [r]
  | x :: xs => if x.prio ≤ r.prio then x :: insertRule r xs else r :: x :: xs

/-- Registering a batch of rules in order, keeping the list priority-sorted
after each registration (as `register_rule` does). -/
def registerRules (rs : List RuleEntry) : List RuleEntry :=
  rs.foldl (fun acc r => insertRule r acc) []

/-- The registration order in `setup_engine`. -/
def setupRegistrationOrder : List RuleEntry :=
  [ruleFormat, ruleToolError, ruleRepeater, ruleHanging,
   ruleOverconfidence, ruleContextLimit]

/-- The engine's rule list after `setup_engine`. -/
def engineRules : List RuleEntry := registerRules setupRegistrationOrder

/-- The evaluation loop of `FailureAnalysisEngine.analyze`: first rule
returning a non-empty category wins; no rule fired gives the fallback. -/
def runRules : List RuleEntry → List Step → AnalyzeCtx →
    Except PyErr (String × String)
  | [], _, _ =>
    .ok ("4. Model Capability Issue", "4.0 Unknown Error / General Response Error")
  | r :: rs, steps, ctx =>
    match r.func steps ctx with
    | .error e => .error e
    | .ok (some p) => .ok p
    | .ok none => runRules rs steps ctx

/-- Embeds `FailureAnalysisEngine.analyze` for the `setup_engine` engine. -/
def analyze (steps : List Step) (ctx : AnalyzeCtx) : Except PyErr (String × String) :=
  runRules engineRules steps ctx

/-! ## Statistics over stored trajectories

Row models of the two stored tables: the trajectory table (the columns the
statistics code reads: `trajectory_id`, `data_id`, `reward`) and the analysis
table (`trajectory_id`, `is_success`).  A pandas left-merge on
`trajectory_id` followed by `fillna(False)` is a lookup defaulting to
`false`; per the data model there is at most one analysis row per id. -/

structure TRow where
  trajectory_id : String
  data_id : String
  reward : ℚ
deriving DecidableEq, Repr

structure ARow where
  trajectory_id : String
  is_success : Bool
deriving DecidableEq, Repr

/-- The `is_success` value the merge attaches to a trajectory (if any). -/
def lookupAnalysis (analysis : List ARow) (tid : String) : Option Bool :=
  (analysis.find? (fun a => a.trajectory_id == tid)).map (fun a => a.is_success)

/-- Value of `merged['is_success'].fillna(False)` for one row. -/
def mergedIsSuccess (analysis : List ARow) (t : TRow) : Bool :=
  (lookupAnalysis analysis t.trajectory_id).getD false

/-- Model of `pandas.unique` over a column: first-occurrence order, duplicates removed. -/
def uniquesAux : List String → List String → List String
  | _, [] => []
  | seen, d :: t =>
    if seen.contains d then uniquesAux seen t
    else d :: uniquesAux (d :: seen) t

def uniques (l : List String) : List String := uniquesAux [] l

/-- The fields of `AnalysisStatistics` that `get_statistics` computes from the
modelled columns (`avg_exec_time` needs the unmodelled `exec_time` column). -/
structure AnalysisStatistics where
  total_count : Nat
  success_count : Nat
  failure_count : Nat
  pass_at_1 : ℚ
  pass_at_k : ℚ
deriving DecidableEq, Repr

/-- Embeds `AnalysisService.get_statistics` (analysis_service.py lines 85-121):
left-merge, `fillna(False)`, Pass@1 as the mean of `is_success`, Pass@K as
`float(is_success.max())` — 1.0 iff any trajectory in the whole population is
counted successful. -/
def getStatistics (df : List TRow) (analysis : List ARow) : AnalysisStatistics :=
  if df.isEmpty then ⟨0, 0, 0, 0, 0⟩
  else
    let total := df.length
    let succ := df.countP (mergedIsSuccess analysis)
    ⟨total, succ, total - succ,
     (succ : ℚ) / (total : ℚ),
     if df.any (mergedIsSuccess analysis) then 1 else 0⟩

/-- Difficulty from a success rate in `questions.py` (`_compute_question_stats`
lines 62-68 and `get_question_stats` lines 182-188). -/
def questionsTier (rate : ℚ) : String :=
  if rate ≥ 7/10 then "Easy"
  else if rate ≥ 2/5 then "Medium"
  else "Hard"

structure QuestionStat where
  id : String
  successCount : Nat
  totalCount : Nat
  rate : ℚ
  difficulty : String
deriving DecidableEq, Repr

/-- One `data_id` group of `_compute_question_stats` (questions.py lines
32-81): with a nonempty analysis table success is the merged `is_success`
(missing analyses count as failures); only with an entirely empty analysis
table does the code fall back to `reward > 0`. -/
def questionGroupStat (df : List TRow) (analysis : List ARow) (d : String) :
    QuestionStat :=
  let g := df.filter (fun t => t.data_id == d)
  let succ :=
    if analysis.isEmpty then g.countP (fun t => decide (t.reward > 0))
    else g.countP (mergedIsSuccess analysis)
  let total := g.length
  let rate : ℚ := if total > 0 then (succ : ℚ) / (total : ℚ) else 0
  ⟨d, succ, total, rate, questionsTier rate⟩

/-- Stable ascending insertion by `data_id`, modelling the final
`question_stats.sort(key=lambda x: x['id'])`. -/
def insertQStat (q : QuestionStat) : List QuestionStat → List QuestionStat
  | [] => [q]
  | x :: xs => if x.id ≤ q.id then x :: insertQStat q xs else q :: x :: xs

def sortQStats (l : List QuestionStat) : List QuestionStat :=
  l.foldl (fun acc q => insertQStat q acc) []

/-- Embeds `_compute_question_stats`. -/
def computeQuestionStats (df : List TRow) (analysis : List ARow) :
    List QuestionStat :=
  if df.isEmpty then []
  else sortQStats ((uniques (df.map (fun t => t.data_id))).map
    (questionGroupStat df analysis))

/-- The Pass@K computation of `TrainingStatsService.get_epoch_level_stats`
(training_stats_service.py lines 91-98), applied to one epoch's rows: count
the `data_id` groups with at least one `reward > 0` row, divide by the number
of groups. -/
def epochPassAtK (rows : List TRow) : ℚ :=
  let dataIds := uniques (rows.map (fun t => t.data_id))
  let passKCount : Nat := dataIds.foldl
    (fun acc d =>
      if (rows.filter (fun t => t.data_id == d)).any (fun t => decide (t.reward > 0))
      then acc + 1 else acc) 0
  if dataIds.length > 0 then (passKCount : ℚ) / (dataIds.length : ℚ) else 0

/-- The difficulty-distribution counters of `get_latest_epoch_stats`
(analysis_stats.py lines 246-248), applied to the per-question success
rates: easy/medium/hard as (≥ 0.7), (0.4 ≤ r < 0.7), (< 0.4). -/
def analysisStatsDifficultyCounts (rates : List ℚ) : Nat × Nat × Nat :=
  ((rates.filter (fun r => decide (r ≥ 7/10))).length,
   (rates.filter (fun r => decide ((2 : ℚ)/5 ≤ r ∧ r < 7/10))).length,
   (rates.filter (fun r => decide (r < 2/5))).length)

structure DiffDist where
  easy : Nat
  medium : Nat
  hard : Nat
deriving DecidableEq, Repr

/-- Embeds `VisualizationService.get_difficulty_distribution` (visualization_service.py
lines 201-228): merge, `fillna(False)`, group by `data_id`, mean `is_success`;
then easy iff rate ≥ 0.9, hard iff rate == 0.0, medium is the rest. -/
def getDifficultyDistribution (df : List TRow) (analysis : List ARow) : DiffDist :=
  if df.isEmpty then ⟨0, 0, 0⟩
  else
    let ds := uniques (df.map (fun t => t.data_id))
    let rates := ds.map (fun d =>
      let g := df.filter (fun t => t.data_id == d)
      ((g.countP (mergedIsSuccess analysis) : ℚ)) / (g.length : ℚ))
    let easy := rates.countP (fun r => decide (r ≥ 9/10))
    let hard := rates.countP (fun r => decide (r = 0))
    ⟨easy, rates.length - easy - hard, hard⟩

/-! ## Spec-side statistics definitions (for refinement comparisons)

These follow the specification text, not the code; the theorems compare them
with the embedded code. -/

/-- Spec: `success(t) := classification.is_success if present else reward(t) > 0`. -/
def claimSuccess (analysis : List ARow) (t : TRow) : Bool :=
  match lookupAnalysis analysis t.trajectory_id with
  | some b => b
  | none => decide (t.reward > 0)

/-- Spec: Pass@K is the fraction of `data_id` groups with at least one
success, for a given success predicate. -/
def specPassAtK (rows : List TRow) (success : TRow → Bool) : ℚ :=
  let ds := uniques (rows.map (fun t => t.data_id))
  ((ds.filter (fun d => (rows.filter (fun t => t.data_id == d)).any success)).length : ℚ)
    / (ds.length : ℚ)

/-- Spec difficulty tier: r ≥ 0.7 easy; 0.4 ≤ r < 0.7 medium; r < 0.4 hard. -/
def specTier (r : ℚ) : String :=
  if r ≥ 7/10 then "Easy"
  else if (2 : ℚ)/5 ≤ r ∧ r < 7/10 then "Medium"
  else "Hard"

/-! ## Record normalization (`import_service.py`, `_normalize_trajectory_data`)

A flat record (a decoded JSON object without a `trajectory`/`trajectories`
wrapper key, for which `_detect_and_convert_nested_format` is the identity)
is modelled by the keys the normalizer reads; an `Option` field is an
optional key.  Numeric reward fields are `ℚ` and integer coordinates `Int`
(so the `float()`/`str()` casts of the source always succeed); the `task`
dict is modelled by its `question` text.  The `steps` coercion (source lines
288-311) touches only the unmodelled `steps` list and no other field, and is
omitted. -/

structure PyRecord where
  trajectory_id : Option String := none
  data_id : Option String := none
  training_id : Option String := none
  epoch_id : Option Int := none
  iteration_id : Option Int := none
  sample_id : Option Int := none
  tree_id : Option Int := none
  task : Option String := none
  chat_completions : Option (List Step) := none
  reward : Option ℚ := none
  final_reward : Option ℚ := none
  trajectory_reward : Option ℚ := none
  res_reward : Option ℚ := none
  toolcall_reward : Option ℚ := none
  exec_time : Option ℚ := none
  agent_name : Option String := none
  termination_reason : Option String := none
deriving DecidableEq, Repr

/-- Python `s.split(sep)` for a one-character separator. -/
def splitChar (sep : Char) : List Char → List (List Char)
  | [] => [[]]
  | c :: t =>
    let r := splitChar sep t
    if c = sep then [] :: r
    else
      match r with
      | h :: t2 => (c :: h) :: t2
      | [] => [[c]]

/-- Python `trajectory_id.split("-")`. -/
def splitDash (s : String) : List String :=
  (splitChar '-' s.data).map (fun l => (⟨l⟩ : String))

/-- Python `normalized.get(k, "")` for a string-valued key. -/
def optStr (o : Option String) : String := o.getD ""

/-- Python `str(...)` of `normalized.get(k, "")` for an integer-valued key. -/
def optIntStr : Option Int → String
  | some i => toString i
  | none => ""

/-- The f-string `"{data_id}-{training_id}-{epoch_id}-{iteration_id}-{sample_id}-{tree_id}"`. -/
def rebuildId (r : PyRecord) (treeS : String) : String :=
  optStr r.data_id ++ "-" ++ optStr r.training_id ++ "-" ++ optIntStr r.epoch_id ++
    "-" ++ optIntStr r.iteration_id ++ "-" ++ optIntStr r.sample_id ++ "-" ++ treeS

/-- Step 0 of `_normalize_trajectory_data` (lines 218-236): when both
`trajectory_id` and `tree_id` are present, the id has at least 6
dash-segments, and its last segment differs from `str(tree_id)`, rebuild the
id from the coordinate fields. -/
def repairTrajectoryId (r : PyRecord) : PyRecord :=
  match r.trajectory_id, r.tree_id with
  | some tid, some tree =>
    let treeS := toString tree
    let parts := splitDash tid
    if parts.length ≥ 6 ∧ parts.getLast? ≠ some treeS then
      { r with trajectory_id := some (rebuildId r treeS) }
    else r
  | _, _ => r

/-- Step 1 (lines 239-247): synthesize a missing `task`.  Note the source
leaves `task` missing when `chat_completions` has more than one element but
its second element is not a user message. -/
def synthesizeTask (r : PyRecord) : PyRecord :=
  if r.task.isSome then r
  else
    match r.chat_completions with
    | some cc =>
      if cc.length > 1 then
        match cc.get? 1 with
        | some m =>
          if m.role = some "user" then { r with task := some (m.content.getD "") }
          else r
        | none => r
      else { r with task := some "" }
    | none => { r with task := some "" }

/-- Step 2 (lines 250-254): `setdefault` for the optional scalars. -/
def setDefaults (r : PyRecord) : PyRecord :=
  { r with exec_time := some (r.exec_time.getD 0),
           agent_name := some (r.agent_name.getD ""),
           termination_reason := some (r.termination_reason.getD ""),
           toolcall_reward := some (r.toolcall_reward.getD 0),
           res_reward := some (r.res_reward.getD 0) }

/-- The `elif` arm of step 2.5 (lines 272-279): a zero (or missing) `reward`
is replaced by a nonzero `res_reward`. -/
def fallbackResReward (r : PyRecord) : PyRecord :=
  if r.reward.getD 0 = 0 then
    match r.res_reward with
    | some res => if res ≠ 0 then { r with reward := some res } else r
    | none => r
  else r

/-- Step 2.5 (lines 256-279): a nonzero `final_reward` (else
`trajectory_reward`) overrides `reward`; otherwise fall back to `res_reward`.
Step 3's `float()` cast is the identity on the `ℚ`-typed model. -/
def resolveReward (r : PyRecord) : PyRecord :=
  let finalVal : Option ℚ :=
    match r.final_reward with
    | some v => some v
    | none => r.trajectory_reward
  match finalVal with
  | some v => if v ≠ 0 then { r with reward := some v } else fallbackResReward r
  | none => fallbackResReward r

/-- Embeds `_normalize_trajectory_data` on a flat record. -/
def normalizeFlat (r : PyRecord) : PyRecord :=
  resolveReward (setDefaults (synthesizeTask (repairTrajectoryId r)))

/-- Embeds `validate_trajectory` on the normalized record: only `trajectory_id` and
`data_id` are required (the `float`/list type checks of the source cannot
fail on the typed model). -/
def validateTrajectory (r : PyRecord) : Bool :=
  r.trajectory_id.isSome && r.data_id.isSome

/-! ## The JSONL import loop (`import_from_jsonl`, single-object records)

State of one streaming import run: the `ExistingIdSet` snapshot loaded once
at the start (`existing`, never updated during the run), the pending batch,
and the result counters.  `process_json_object` is embedded for objects
without a `trajectories` wrapper (lines 622-668 of the source). -/

def BATCH_SIZE : Nat := 500

structure ImportState where
  existing : List String
  batch : List PyRecord
  imported : Nat
  skipped : Nat
  failed : Nat
  errors : List String
deriving DecidableEq, Repr

/-- Success of the pydantic construction `Trajectory(**traj_data)` on the
modelled fields: `trajectory_id`, `data_id` and `task` are the fields
without defaults (every other modelled field has one), so on the typed
record model construction succeeds iff all three keys are present.  A
record can reach construction with `task` still missing: `validate_trajectory`
does not require `task`, and the synthesis step leaves it absent when
`chat_completions` has more than one element whose second element is not a
user message. -/
def trajectoryConstructs (r : PyRecord) : Bool :=
  r.trajectory_id.isSome && r.data_id.isSome && r.task.isSome

/-- Embeds `process_json_object` on a single-trajectory object: normalize, validate
(failure appends an error), check the id against the start-of-run snapshot
only (a hit increments `skipped`, no error); then `Trajectory(**traj_data)`
is constructed — a pydantic failure is caught by the enclosing handler
(source lines 670-674), counting the record failed with an error — and the
survivor accumulates, flushing full batches.  The storage collaborator's
`add_batch` is the external interface and is modelled as infallible. -/
def processJsonObject (skipDup : Bool) (st : ImportState) (obj : PyRecord) :
    ImportState :=
  let t := normalizeFlat obj
  if ¬ validateTrajectory t then
    { st with failed := st.failed + 1, errors := st.errors ++ ["validation failed"] }
  else
    let tid := optStr t.trajectory_id
    if ¬ skipDup ∧ st.existing.contains tid then
      { st with skipped := st.skipped + 1 }
    else if ¬ trajectoryConstructs t then
      { st with failed := st.failed + 1,
                errors := st.errors ++ ["trajectory construction failed"] }
    else
      let batch := st.batch ++ [t]
      if batch.length ≥ BATCH_SIZE then
        { st with batch := [], imported := st.imported + batch.length }
      else
        { st with batch := batch }

/-- The whole run over the decoded objects of one file: fold
`process_json_object`, then flush the remaining batch (lines 782-786). -/
def runJsonlImport (existing : List String) (objs : List PyRecord) : ImportState :=
  let final := objs.foldl (processJsonObject false) ⟨existing, [], 0, 0, 0, []⟩
  if final.batch.length > 0 then
    { final with batch := [], imported := final.imported + final.batch.length }
  else final

/-! ## The streaming record extractor (`import_from_jsonl`, lines 676-805)

`try_parse_buffer` and the line-driven read loop.  `json.loads` is an
external library call and is a parameter `jloads` of every definition; the
concrete instantiation `jloadsMini` below is an executable model sufficient
for the concrete buffers in the theorems.  Buffers are `List Char` (Python
`str`).  The literal brace characters are written through `jsonOpen`/`jsonClose`. -/

def jsonOpen : Char := '\x7b'

def jsonClose : Char := '\x7d'

/-- Python `buffer.strip()` on a char-list buffer. -/
def stripChars (l : List Char) : List Char :=
  ((l.dropWhile Char.isWhitespace).reverse.dropWhile Char.isWhitespace).reverse

/-- The scanner state of `try_parse_buffer`: `brace_count`, `in_string`,
`escape_next`, `obj_start` (-1 when unset). -/
structure ScanSt where
  braceCount : Int
  inString : Bool
  escapeNext : Bool
  objStart : Int
deriving DecidableEq, Repr

def scanInit : ScanSt := ⟨0, false, false, -1⟩

/-- One character of the scan (the `continue`-chain of lines 699-732), as the
state transition taken when the loop does not return. -/
def stepState (st : ScanSt) (i : Nat) (c : Char) : ScanSt :=
  if st.escapeNext then { st with escapeNext := false }
  else if c = '\\' ∧ st.inString then { st with escapeNext := true }
  else if c = '"' ∧ ¬ st.inString then { st with inString := true }
  else if c = '"' ∧ st.inString then { st with inString := false }
  else if ¬ st.inString then
    if c = jsonOpen then
      { st with braceCount := st.braceCount + 1,
                objStart := if st.braceCount = 0 then (i : Int) else st.objStart }
    else if c = jsonClose then { st with braceCount := st.braceCount - 1 }
    else st
  else st

/-- The loop attempts a parse exactly when an unescaped `\x7d` outside a
string returns the depth to zero with a recorded start. -/
def scanExit (st : ScanSt) (c : Char) : Bool :=
  ¬ st.escapeNext ∧ ¬ st.inString ∧ c = jsonClose ∧
    st.braceCount - 1 = 0 ∧ st.objStart ≥ 0

/-- Python `buffer[obj_start : i+1]`. -/
def bufSegment (buffer : List Char) (s : Int) (i : Nat) : List Char :=
  (buffer.drop s.toNat).take (i + 1 - s.toNat)

/-- Outcome of `try_parse_buffer`: `empty` is Python `True`, `found` carries
the parsed object and the new buffer contents, `incomplete` is `None`. -/
inductive ParseOutcome (J : Type) where
  | empty
  | found (obj : J) (rest : List Char)
  | incomplete

/-- The character scan of `try_parse_buffer` (lines 694-732): on a failed
parse at a closing brace the scan continues with the same `obj_start` and the
decremented depth. -/
def scanLoop {J} (jloads : List Char → Option J) (buffer : List Char) :
    Nat → List Char → ScanSt → ParseOutcome J
  | _, [], _ => .incomplete
  | i, c :: rs, st =>
    if scanExit st c then
      match jloads (bufSegment buffer st.objStart i) with
      | some o => .found o (buffer.drop (i + 1))
      | none => scanLoop jloads buffer (i + 1) rs (stepState st i c)
    else scanLoop jloads buffer (i + 1) rs (stepState st i c)

/-- Embeds `try_parse_buffer`: empty (stripped) buffer, else whole-buffer parse,
else the brace scan. -/
def tryParseBuffer {J} (jloads : List Char → Option J) (jsonBuffer : List Char) :
    ParseOutcome J :=
  let buffer := stripChars jsonBuffer
  if buffer.isEmpty then .empty
  else
    match jloads buffer with
    | some o => .found o []
    | none => scanLoop jloads buffer 0 buffer scanInit

/-- The inner `while True` of the read loop (lines 746-756): keep extracting
complete objects from the buffer.  Structural fuel; `buf.length + 1` is
always sufficient (each extraction strictly shrinks the buffer). -/
def drainBuffer {J} (jloads : List Char → Option J) :
    Nat → List Char → List J → List Char × List J
  | 0, buf, acc => (buf, acc)
  | fuel + 1, buf, acc =>
    match tryParseBuffer jloads buf with
    | .empty => (buf, acc)
    | .incomplete => (buf, acc)
    | .found o rest => drainBuffer jloads fuel rest (acc ++ [o])

/-- The `for line in f` loop (lines 740-756): append each line to the buffer
and drain it. -/
def feedLines {J} (jloads : List Char → Option J) :
    List (List Char) → List Char → List J → List Char × List J
  | [], buf, acc => (buf, acc)
  | line :: rest, buf, acc =>
    let out := drainBuffer jloads (buf.length + line.length + 1) (buf ++ line) acc
    feedLines jloads rest out.1 out.2

/-- Builds the error detail string with the first 200 residual characters. -/
def terminalErrorMsg (buf : List Char) : String :=
  "文件末尾有无法解析的内容: " ++ (⟨buf.take 200⟩ : String)

/-- Python `s[:n]` on strings. -/
def takeStr (n : Nat) (s : String) : String := ⟨s.data.take n⟩

/-- Python truthiness of a decoded JSON value (`if obj and obj is not True`). -/
def jTruthyOf {J} (truthy : J → Bool) (o : J) : Bool := truthy o

structure ExtractResult (J : Type) where
  processed : List J
  errors : List String
  residual : List Char

/-- The extractor part of `import_from_jsonl`: run the read loop over the
file's lines, then the end-of-stream residual handling (lines 767-780) and
the debug-info reporting (lines 801-805): a truthy re-parsed residual object
is processed, a falsy one is ignored (`if obj and obj is not True`), an
unparseable residual is reported with a bounded preview. -/
def runExtract {J} (jloads : List Char → Option J) (truthy : J → Bool)
    (lines : List (List Char)) : ExtractResult J :=
  let out := feedLines jloads lines [] []
  let buf := out.1
  let acc := out.2
  if (stripChars buf).isEmpty then ⟨acc, [], buf⟩
  else
    match tryParseBuffer jloads buf with
    | .found o _rest => if truthy o then ⟨acc ++ [o], [], buf⟩ else ⟨acc, [], buf⟩
    | .empty => ⟨acc, [], buf⟩
    | .incomplete =>
      ⟨acc,
       ["Debug info: 1 parse errors",
        "Line " ++ toString lines.length ++ ": " ++
          takeStr 100 (terminalErrorMsg buf)],
       buf⟩

/-! ## A concrete JSON decoder

An executable model of `json.loads`, used to instantiate `jloads` on the
concrete buffers of the theorems (objects, arrays, strings with `\"`/`\\`
escapes, integers, literals).  The extractor theorems that quantify over
`jloads` hold for every decoder. -/

inductive J where
  | null
  | jbool (b : Bool)
  | jnum (n : Int)
  | jstr (s : List Char)
  | jarr (xs : List J)
  | jobj (kvs : List (List Char × J))

/-- Python truthiness of a decoded value: `None`, `False`, `0`, `""`, `[]`
and `\x7b\x7d` are falsy. -/
def jTruthy : J → Bool
  | .null => false
  | .jbool b => b
  | .jnum n => decide (n ≠ 0)
  | .jstr s => ¬ s.isEmpty
  | .jarr xs => ¬ xs.isEmpty
  | .jobj kvs => ¬ kvs.isEmpty

def isJsonWs (c : Char) : Bool := c = ' ' ∨ c = '\t' ∨ c = '\n' ∨ c = '\r'

def skipWs (l : List Char) : List Char := l.dropWhile isJsonWs

/-- Escape table for the string escapes the concrete buffers use. -/
def escTable : List (Char × Char) :=
  [('"', '"'), ('\\', '\\'), ('/', '/'), ('n', '\n'), ('t', '\t'), ('r', '\r')]

def unescapeChar (e : Char) : Option Char :=
  (escTable.find? (fun p => p.1 = e)).map (fun p => p.2)

/-- String body after the opening quote, handling the JSON escapes used. -/
def parseStringRest : List Char → Option (List Char × List Char)
  | [] => none
  | '"' :: r => some ([], r)
  | '\\' :: e :: r =>
    match unescapeChar e, parseStringRest r with
    | some c, some (b, r2) => some (c :: b, r2)
    | _, _ => none
  | c :: r =>
    match parseStringRest r with
    | some (b, r2) => some (c :: b, r2)
    | none => none

def parseDigits : List Char → Nat → Nat × List Char
  | c :: r, acc =>
    if c.isDigit then parseDigits r (acc * 10 + (c.toNat - 48))
    else (acc, c :: r)
  | [], acc => (acc, [])

/-- Recognize a keyword literal (`null`, `true`, `false`) at the front. -/
def jsonLit (tok : String) (v : J) (l : List Char) : Option (J × List Char) :=
  if tok.data.isPrefixOf l then some (v, l.drop tok.length) else none

mutual

def parseValue : Nat → List Char → Option (J × List Char)
  | 0, _ => none
  | fuel + 1, input =>
    let l := skipWs input
    (jsonLit "null" .null l).orElse fun _ =>
    (jsonLit "true" (.jbool true) l).orElse fun _ =>
    (jsonLit "false" (.jbool false) l).orElse fun _ =>
    match l with
    | '"' :: r =>
      match parseStringRest r with
      | some (b, r2) => some (.jstr b, r2)
      | none => none
    | '-' :: c :: r =>
      if c.isDigit then
        let p := parseDigits (c :: r) 0
        some (.jnum (-(p.1 : Int)), p.2)
      else none
    | '[' :: r =>
      (match skipWs r with
       | ']' :: r2 => some (.jarr [], r2)
       | l2 =>
         match parseElems fuel l2 with
         | some (xs, r2) => some (.jarr xs, r2)
         | none => none)
    | c :: r =>
      if c = jsonOpen then
        match skipWs r with
        | c2 :: r2 =>
          if c2 = jsonClose then some (.jobj [], r2)
          else
            match parseMembers fuel (c2 :: r2) with
            | some (kvs, r3) => some (.jobj kvs, r3)
            | none => none
        | [] => none
      else if c.isDigit then
        let p := parseDigits (c :: r) 0
        some (.jnum (p.1 : Int), p.2)
      else none
    | [] => none

def parseElems : Nat → List Char → Option (List J × List Char)
  | 0, _ => none
  | fuel + 1, l =>
    match parseValue fuel l with
    | none => none
    | some (v, r) =>
      match skipWs r with
      | ',' :: r2 =>
        (match parseElems fuel r2 with
         | some (vs, r3) => some (v :: vs, r3)
         | none => none)
      | ']' :: r2 => some ([v], r2)
      | _ => none

def parseMembers : Nat → List Char → Option (List (List Char × J) × List Char)
  | 0, _ => none
  | fuel + 1, l =>
    match skipWs l with
    | '"' :: r =>
      (match parseStringRest r with
       | none => none
       | some (k, r2) =>
         match skipWs r2 with
         | ':' :: r3 =>
           (match parseValue fuel r3 with
            | none => none
            | some (v, r4) =>
              match skipWs r4 with
              | ',' :: r5 =>
                (match parseMembers fuel r5 with
                 | some (kvs, r6) => some ((k, v) :: kvs, r6)
                 | none => none)
              | c :: r5 => if c = jsonClose then some ([(k, v)], r5) else none
              | [] => none)
         | _ => none)
    | _ => none

end

/-- The concrete `json.loads` model: parse one value and require only
whitespace after it. -/
def jloadsMini (l : List Char) : Option J :=
  match parseValue (2 * l.length + 4) l with
  | some (v, r) => if (skipWs r).isEmpty then some v else none
  | none => none

deriving instance DecidableEq for Except

/-- The engine configuration of `setup_engine()`: `max_turn_limit = 8`. -/
def ctx8 : AnalyzeCtx := ⟨8⟩

/-- An assistant message with the given content. -/
def aMsg (c : String) : Step := ⟨some "assistant", some c⟩

/-! ## Concrete data for the theorems -/

/-- The scenario of the spec: four trajectories under `data_id="q1"` with
rewards `[1,1,0,0]` and no stored classifications. -/
def c1trajs : List TRow :=
  [⟨"q1-a", "q1", 1⟩, ⟨"q1-b", "q1", 1⟩, ⟨"q1-c", "q1", 0⟩, ⟨"q1-d", "q1", 0⟩]

/-- A group with one classified-successful trajectory and one unclassified
trajectory with positive reward. -/
def c1mixTrajs : List TRow := [⟨"u1", "q", 0⟩, ⟨"u2", "q", 1⟩]

def c1mixAnal : List ARow := [⟨"u1", true⟩]

/-- Two `data_id` groups; only the first contains a counted success. -/
def c2trajs : List TRow := [⟨"a1", "q1", 0⟩, ⟨"a2", "q2", 0⟩]

def c2anal : List ARow := [⟨"a1", true⟩]

/-- One question with five trajectories, four of them classified successful:
per-question success rate 4/5. -/
def c9trajs : List TRow :=
  [⟨"t1", "q", 0⟩, ⟨"t2", "q", 0⟩, ⟨"t3", "q", 0⟩, ⟨"t4", "q", 0⟩, ⟨"t5", "q", 0⟩]

def c9anal : List ARow := [⟨"t1", true⟩, ⟨"t2", true⟩, ⟨"t3", true⟩, ⟨"t4", true⟩]

/-- A transcript of four assistant messages that all carry tool-call intent
(`<function>`), no structurally valid tag pair, and identical contents — it
satisfies the format-error condition and the repeater condition at once. -/
def c4steps : List Step :=
  [aMsg "<function> x", aMsg "<function> x", aMsg "<function> x", aMsg "<function> x"]

/-- Exactly three identical assistant messages (no fourth message). -/
def c5steps : List Step := [aMsg "x", aMsg "x", aMsg "x"]

/-- Four identical assistant messages. -/
def c5good : List Step := [aMsg "x", aMsg "x", aMsg "x", aMsg "x"]

/-- Length-4 transcript whose second message has no `role` key. -/
def c10badRole : List Step :=
  [⟨some "user", some "q"⟩, ⟨none, some "x"⟩, aMsg "x", aMsg "y"]

/-- Length-4 transcript whose first (assistant) message has no `content` key. -/
def c10badContent : List Step :=
  [⟨some "assistant", none⟩, aMsg "x", aMsg "y", aMsg "z"]

/-! ## Helper lemmas -/

/-- Lemma: `check_format_error` only ever reports the format-anomaly category. -/
theorem checkFormatError_category :
    ∀ (steps : List Step) (ctx : AnalyzeCtx) (p : String × String),
      checkFormatError steps ctx = some p → p.1 = "1. Trajectory Anomaly (Format)" := by
  intro steps ctx
  induction steps with
  | nil => intro p h; simp [checkFormatError] at h
  | cons s rest ih =>
    intro p h
    unfold checkFormatError at h
    split_ifs at h with h1 h2 h3 h4
    all_goals first
      | exact ih p h
      | (injection h with h5; rw [← h5])

/-- On a transcript whose messages all carry both keys, the assistant-content
comprehension does not raise. -/
theorem assistantContents_total :
    ∀ (steps : List Step), (∀ s ∈ steps, s.role.isSome ∧ s.content.isSome) →
      ∃ cs, assistantContents steps = .ok cs := by
  intro steps
  induction steps with
  | nil => intro _; exact ⟨[], rfl⟩
  | cons s rest ih =>
    intro h
    obtain ⟨hr, hc⟩ := h s (by simp)
    obtain ⟨cs, hcs⟩ := ih (fun s hs => h s (by simp [hs]))
    match hrole : s.role with
    | none => simp [hrole] at hr
    | some r =>
      by_cases hass : r = "assistant"
      · match hcont : s.content with
        | none => simp [hcont] at hc
        | some c =>
          refine ⟨c :: cs, ?_⟩
          simp [assistantContents, hrole, hcont, hass, hcs]
      · exact ⟨cs, by simp [assistantContents, hrole, hass, hcs]⟩

/-- The sorted rule order of `setup_engine`. -/
theorem engineRules_sorted :
    engineRules =
      [ruleFormat, ruleToolError, ruleRepeater, ruleContextLimit,
       ruleHanging, ruleOverconfidence] := rfl

/-! ## Claim C4 -/

/-- Claim C4: the engine evaluates its rules strictly sequentially in
ascending priority (10, 20, 30, 40, 45, 50) and stops at the first rule
returning a non-empty category; in particular, whenever the format-error
rule fires — so on every transcript satisfying both the format-error and the
repeater conditions — `analyze` returns the format result, whose category is
the format anomaly, and no later rule decides. -/
theorem C4_priority_short_circuit :
    engineRules =
      [ruleFormat, ruleToolError, ruleRepeater, ruleContextLimit,
       ruleHanging, ruleOverconfidence] ∧
    (∀ (steps : List Step) (ctx : AnalyzeCtx) (p : String × String),
       checkFormatError steps ctx = some p →
       analyze steps ctx = .ok p ∧ p.1 = "1. Trajectory Anomaly (Format)") := by
  refine ⟨rfl, ?_⟩
  intro steps ctx p h
  refine ⟨?_, checkFormatError_category steps ctx p h⟩
  show runRules engineRules steps ctx = .ok p
  rw [engineRules_sorted]
  simp [runRules, ruleFormat, h]

/-- Witness for C4 at a transcript satisfying both the format-error and the
repeater conditions: the format rule decides, not the repeater. -/
theorem C4_witness :
    analyze c4steps ctx8 =
      .ok ("1. Trajectory Anomaly (Format)", "1.3 Invalid Tool Format") ∧
    checkRepeater c4steps ctx8 =
      .ok (some ("1. Trajectory Anomaly (Loop)", "3.1 Repetitive Output / Repeater")) :=
  ⟨(C4_priority_short_circuit.2 c4steps ctx8
      ("1. Trajectory Anomaly (Format)", "1.3 Invalid Tool Format") (by decide)).1,
   by decide⟩

/-! ## Claim C5 -/

/-- Claim C5 (amended): the repeater rule additionally requires the whole
transcript to have at least 4 messages.  Under that extra hypothesis — with
at least 3 assistant messages, the last 3 character-identical, every message
carrying its keys, and neither the format rule nor the repeated-tool-failure
rule firing — the classifier returns the repeater-loop category. -/
theorem C5_repeater_amended (steps : List Step) (ctx : AnalyzeCtx) (cs : List String)
    (hlen : 4 ≤ steps.length)
    (hfmt : checkFormatError steps ctx = none)
    (htool : checkRepeatedToolError steps ctx = none)
    (hcs : assistantContents steps = .ok cs)
    (h3 : 3 ≤ cs.length)
    (hsame : allSameOne (cs.drop (cs.length - 3)) = true) :
    analyze steps ctx =
      .ok ("1. Trajectory Anomaly (Loop)", "3.1 Repetitive Output / Repeater") := by
  have hrep : checkRepeater steps ctx =
      .ok (some ("1. Trajectory Anomaly (Loop)", "3.1 Repetitive Output / Repeater")) := by
    unfold checkRepeater
    rw [if_neg (by omega), hcs]
    have hl : (cs.drop (cs.length - 3)).length = 3 := by
      rw [List.length_drop]; omega
    exact if_pos ⟨by omega, hsame⟩
  show runRules engineRules steps ctx = _
  rw [engineRules_sorted]
  simp [runRules, ruleFormat, ruleToolError, ruleRepeater, hfmt, htool, hrep]

/-- Counterexample to C5 as stated: a transcript of exactly three identical
assistant messages has at least 3 assistant messages with identical last 3,
no higher-priority rule fires, yet the classifier reports the
hanging/truncated category (the repeater rule requires `len(steps) >= 4`). -/
theorem C5_counterexample :
    assistantContents c5steps = .ok ["x", "x", "x"] ∧
    allSameOne ["x", "x", "x"] = true ∧
    checkFormatError c5steps ctx8 = none ∧
    checkRepeatedToolError c5steps ctx8 = none ∧
    analyze c5steps ctx8 =
      .ok ("1. Trajectory Anomaly (Truncated)",
           "4.3 No Action after Thought / Abnormal Stop (Possible Truncation)") := by
  refine ⟨rfl, rfl, rfl, rfl, by decide⟩

/-- Witness for C5 (amended) at a four-message repeater transcript. -/
theorem C5_witness :
    analyze c5good ctx8 =
      .ok ("1. Trajectory Anomaly (Loop)", "3.1 Repetitive Output / Repeater") :=
  C5_repeater_amended c5good ctx8 ["x", "x", "x", "x"]
    (by decide) rfl rfl rfl (by decide) rfl

/-! ## Claim C10 -/

/-- Claim C10: `analyze` is total on transcripts whose messages all carry
`role` and `content` keys; and without that precondition there are length-4
transcripts — one with a message missing `role`, one with an assistant
message missing `content` — on which the repeater rule's direct subscripting
raises a `KeyError`. -/
theorem C10_totality :
    (∀ (steps : List Step) (ctx : AnalyzeCtx),
       (∀ s ∈ steps, s.role.isSome ∧ s.content.isSome) →
       ∃ p, analyze steps ctx = .ok p) ∧
    analyze c10badRole ctx8 = .error .keyError ∧
    analyze c10badContent ctx8 = .error .keyError ∧
    4 ≤ c10badRole.length ∧ 4 ≤ c10badContent.length := by
  refine ⟨?_, by decide, by decide, by decide, by decide⟩
  intro steps ctx h
  have hrep : ∃ v, checkRepeater steps ctx = .ok v := by
    unfold checkRepeater
    by_cases hl : steps.length < 4
    · exact ⟨none, by rw [if_pos hl]⟩
    · rw [if_neg hl]
      obtain ⟨cs, hcs⟩ := assistantContents_total steps h
      by_cases hc2 : 3 ≤ (cs.drop (cs.length - 3)).length ∧
          allSameOne (cs.drop (cs.length - 3)) = true
      · exact ⟨_, by rw [hcs]; exact if_pos hc2⟩
      · exact ⟨none, by rw [hcs]; exact if_neg hc2⟩
  obtain ⟨v, hv⟩ := hrep
  show ∃ p, runRules engineRules steps ctx = .ok p
  rw [engineRules_sorted]
  cases hf : checkFormatError steps ctx with
  | some p => exact ⟨p, by simp [runRules, ruleFormat, hf]⟩
  | none =>
  cases ht : checkRepeatedToolError steps ctx with
  | some p => exact ⟨p, by simp [runRules, ruleFormat, ruleToolError, hf, ht]⟩
  | none =>
  cases v with
  | some p =>
    exact ⟨p, by simp [runRules, ruleFormat, ruleToolError, ruleRepeater, hf, ht, hv]⟩
  | none =>
  cases hc : checkContextLimit steps ctx with
  | some p =>
    exact ⟨p, by
      simp [runRules, ruleFormat, ruleToolError, ruleRepeater, ruleContextLimit,
            hf, ht, hv, hc]⟩
  | none =>
  cases hh : checkHangingAssistant steps ctx with
  | some p =>
    exact ⟨p, by
      simp [runRules, ruleFormat, ruleToolError, ruleRepeater, ruleContextLimit,
            ruleHanging, hf, ht, hv, hc, hh]⟩
  | none =>
  cases hu : checkUnverifiedSuccess steps ctx with
  | some p =>
    exact ⟨p, by
      simp [runRules, ruleFormat, ruleToolError, ruleRepeater, ruleContextLimit,
            ruleHanging, ruleOverconfidence, hf, ht, hv, hc, hh, hu]⟩
  | none =>
    exact ⟨("4. Model Capability Issue", "4.0 Unknown Error / General Response Error"), by
      simp [runRules, ruleFormat, ruleToolError, ruleRepeater, ruleContextLimit,
            ruleHanging, ruleOverconfidence, hf, ht, hv, hc, hh, hu]⟩

/-- Witness for C10 at a concrete well-shaped transcript. -/
theorem C10_witness : ∃ p, analyze [aMsg "hello"] ctx8 = .ok p :=
  C10_totality.1 [aMsg "hello"] ctx8 (by decide)

/-! ## Claim C1 -/

/-- Counterexample to C1 as stated: the code does not use the per-trajectory
fallback `reward > 0` whenever a classification is missing.  In a group with
any stored classification, the unclassified trajectory `u2` with reward 1 is
counted as a failure (success count 1, not the claimed 2); and on the very
scenario of the claim — four `q1` trajectories with rewards `[1,1,0,0]` and
no stored classifications — `AnalysisService.get_statistics` (a cited code
site) reports Pass@1 = 0, not 0.5. -/
theorem C1_counterexample :
    c1mixTrajs.countP (claimSuccess c1mixAnal) = 2 ∧
    (questionGroupStat c1mixTrajs c1mixAnal "q").successCount = 1 ∧
    (getStatistics c1trajs []).pass_at_1 = 0 ∧ ((0 : ℚ) ≠ 1/2) := by
  refine ⟨by decide, by decide, ?_, by norm_num⟩
  have h : c1trajs.countP (mergedIsSuccess []) = 0 := by decide
  simp [getStatistics, h, c1trajs, mergedIsSuccess, lookupAnalysis]

/-- Claim C1 (amended): in the merged views a trajectory counts as a success
iff its stored classification has `is_success = true`, and a trajectory with
no stored classification counts as a failure regardless of reward — there is
no per-trajectory reward fallback.  The `reward > 0` fallback applies only in
the questions route when the analysis table is entirely empty; on the
scenario (rewards `[1,1,0,0]`, no classifications) that route reports
rate 0.5 and tier "Medium", while `get_statistics` reports Pass@1 = 0. -/
theorem C1_success_fallback_amended :
    (∀ (analysis : List ARow) (t : TRow),
       lookupAnalysis analysis t.trajectory_id = none →
       mergedIsSuccess analysis t = false) ∧
    (∀ (analysis : List ARow) (t : TRow) (b : Bool),
       lookupAnalysis analysis t.trajectory_id = some b →
       mergedIsSuccess analysis t = b) ∧
    computeQuestionStats c1trajs [] = [⟨"q1", 2, 4, 1/2, "Medium"⟩] ∧
    (getStatistics c1trajs []).pass_at_1 = 0 := by
  refine ⟨?_, ?_, ?_, ?_⟩
  · intro analysis t h; simp [mergedIsSuccess, h]
  · intro analysis t b h; simp [mergedIsSuccess, h]
  · have h : (c1trajs.filter (fun t => t.data_id == "q1")).countP
        (fun t => decide (t.reward > 0)) = 2 := by decide
    simp [computeQuestionStats, sortQStats, insertQStat, questionGroupStat,
          uniques, uniquesAux, questionsTier, c1trajs, mergedIsSuccess,
          lookupAnalysis]
    refine ⟨by norm_num, ?_⟩
    rw [if_neg (by norm_num), if_pos (by norm_num)]
  · have h : c1trajs.countP (mergedIsSuccess []) = 0 := by decide
    simp [getStatistics, h, c1trajs, mergedIsSuccess, lookupAnalysis]

/-- Witness for C1 (amended): a reward-5 trajectory with no classification is
counted unsuccessful; a classified one takes its stored flag. -/
theorem C1_witness :
    mergedIsSuccess [] ⟨"w1", "q", 5⟩ = false ∧
    mergedIsSuccess [⟨"w1", true⟩] ⟨"w1", "q", 0⟩ = true :=
  ⟨C1_success_fallback_amended.1 [] ⟨"w1", "q", 5⟩ rfl,
   C1_success_fallback_amended.2.1 [⟨"w1", true⟩] ⟨"w1", "q", 0⟩ true rfl⟩

/-! ## Claim C2 -/

/-- Counting fold of `get_epoch_level_stats` equals a filter length. -/
theorem foldl_count_filter {α : Type} (p : α → Bool) :
    ∀ (l : List α) (n : Nat),
      l.foldl (fun acc d => if p d then acc + 1 else acc) n =
        n + (l.filter p).length := by
  intro l
  induction l with
  | nil => intro n; simp
  | cons a t ih =>
    intro n
    by_cases h : p a <;> simp [List.filter_cons, h, ih] <;> omega

/-- Counterexample to C2 as stated: with two `data_id` groups of which
exactly one contains a counted success, the fraction of groups with a
success is 1/2, but `AnalysisService.get_statistics` reports Pass@K = 1. -/
theorem C2_counterexample :
    (getStatistics c2trajs c2anal).pass_at_k = 1 ∧
    specPassAtK c2trajs (mergedIsSuccess c2anal) = 1/2 ∧
    ((1 : ℚ) ≠ 1/2) := by
  refine ⟨?_, ?_, by norm_num⟩
  · simp [getStatistics, c2trajs, c2anal, mergedIsSuccess, lookupAnalysis]
  · simp [specPassAtK, c2trajs, c2anal, uniques, uniquesAux, mergedIsSuccess,
          lookupAnalysis]

/-- Claim C2 (amended): the per-group Pass@K — the fraction of `data_id`
groups with at least one `reward > 0` trajectory — is what
`TrainingStatsService` computes; `AnalysisService.get_statistics` instead
reports the global indicator `1` iff any trajectory at all is counted
successful, which differs whenever some but not all groups contain a
success. -/
theorem C2_passk_amended :
    (∀ rows : List TRow,
       epochPassAtK rows = specPassAtK rows (fun t => decide (t.reward > 0))) ∧
    (∀ (df : List TRow) (analysis : List ARow), df.isEmpty = false →
       (getStatistics df analysis).pass_at_k =
         if df.any (mergedIsSuccess analysis) then 1 else 0) ∧
    (getStatistics c2trajs c2anal).pass_at_k = 1 ∧
    specPassAtK c2trajs (mergedIsSuccess c2anal) = 1/2 := by
  refine ⟨?_, ?_, ?_, ?_⟩
  · intro rows
    unfold epochPassAtK specPassAtK
    dsimp only
    rw [foldl_count_filter
        (fun d => (rows.filter (fun t => t.data_id == d)).any (fun t => decide (t.reward > 0)))]
    by_cases h : (uniques (rows.map (fun t => t.data_id))).length > 0
    · rw [if_pos h]; norm_num
    · rw [if_neg h]
      have h0 : (uniques (rows.map (fun t => t.data_id))).length = 0 := by omega
      have he : uniques (rows.map (fun t => t.data_id)) = [] :=
        List.length_eq_zero.mp h0
      simp [he]
  · intro df analysis h
    simp [getStatistics, h]
  · simp [getStatistics, c2trajs, c2anal, mergedIsSuccess, lookupAnalysis]
  · simp [specPassAtK, c2trajs, c2anal, uniques, uniquesAux, mergedIsSuccess,
          lookupAnalysis]

/-- Witness for C2 (amended) at the concrete two-group population. -/
theorem C2_witness :
    (getStatistics c2trajs c2anal).pass_at_k =
      if c2trajs.any (mergedIsSuccess c2anal) then 1 else 0 :=
  C2_passk_amended.2.1 c2trajs c2anal rfl

/-! ## Claim C9 -/

/-- Counterexample to C9 as stated: `get_difficulty_distribution` in the
visualization service derives a tier from a per-question success rate with
thresholds 0.9/0.0: the rate-4/5 question lands in `medium`, although
4/5 ≥ 0.7 makes it "Easy" under the claimed rule. -/
theorem C9_counterexample :
    getDifficultyDistribution c9trajs c9anal = ⟨0, 1, 0⟩ ∧
    questionsTier (4/5) = "Easy" ∧ ((4 : ℚ)/5 ≥ 7/10) := by
  refine ⟨?_, ?_, by norm_num⟩
  · simp [getDifficultyDistribution, c9trajs, c9anal, uniques, uniquesAux,
          mergedIsSuccess, lookupAnalysis]
    norm_num
  · unfold questionsTier
    rw [if_pos (by norm_num)]

/-- Claim C9 (amended): the questions routes and the latest-epoch statistics
use exactly the spec tiering (r ≥ 0.7 easy; 0.4 ≤ r < 0.7 medium; r < 0.4
hard), but `VisualizationService.get_difficulty_distribution` uses
easy iff r ≥ 0.9, hard iff r = 0, medium otherwise, and diverges at
r = 4/5. -/
theorem C9_tier_amended :
    (∀ r : ℚ, questionsTier r = specTier r) ∧
    (∀ rates : List ℚ,
       analysisStatsDifficultyCounts rates =
         ((rates.filter (fun r => specTier r == "Easy")).length,
          (rates.filter (fun r => specTier r == "Medium")).length,
          (rates.filter (fun r => specTier r == "Hard")).length)) ∧
    getDifficultyDistribution c9trajs c9anal = ⟨0, 1, 0⟩ ∧
    specTier (4/5) = "Easy" := by
  have htier : ∀ r : ℚ, questionsTier r = specTier r := by
    intro r
    unfold questionsTier specTier
    by_cases h1 : r ≥ 7/10
    · rw [if_pos h1, if_pos h1]
    · rw [if_neg h1, if_neg h1]
      by_cases h2 : r ≥ 2/5
      · rw [if_pos h2, if_pos ⟨h2, by linarith [lt_of_not_ge h1]⟩]
      · rw [if_neg h2, if_neg (by intro hc; exact h2 hc.1)]
  refine ⟨htier, ?_, ?_, ?_⟩
  · intro rates
    unfold analysisStatsDifficultyCounts
    have e1 : ∀ r : ℚ, decide (r ≥ 7/10) = (specTier r == "Easy") := by
      intro r
      unfold specTier
      by_cases h1 : r ≥ 7/10
      · rw [if_pos h1]
        exact (decide_eq_true h1).trans rfl
      · rw [if_neg h1]
        by_cases h2 : (2 : ℚ)/5 ≤ r ∧ r < 7/10
        · rw [if_pos h2]
          exact (decide_eq_false h1).trans rfl
        · rw [if_neg h2]
          exact (decide_eq_false h1).trans rfl
    have e2 : ∀ r : ℚ,
        decide ((2 : ℚ)/5 ≤ r ∧ r < 7/10) = (specTier r == "Medium") := by
      intro r
      unfold specTier
      by_cases h1 : r ≥ 7/10
      · rw [if_pos h1]
        have hno : ¬ ((2 : ℚ)/5 ≤ r ∧ r < 7/10) := fun hc => absurd hc.2 (not_lt.mpr h1)
        exact (decide_eq_false hno).trans rfl
      · rw [if_neg h1]
        by_cases h2 : (2 : ℚ)/5 ≤ r ∧ r < 7/10
        · rw [if_pos h2]
          exact (decide_eq_true h2).trans rfl
        · rw [if_neg h2]
          exact (decide_eq_false h2).trans rfl
    have e3 : ∀ r : ℚ, decide (r < 2/5) = (specTier r == "Hard") := by
      intro r
      unfold specTier
      by_cases h1 : r ≥ 7/10
      · rw [if_pos h1]
        have hno : ¬ (r < 2/5) := by intro hc; rw [ge_iff_le] at h1; linarith
        exact (decide_eq_false hno).trans rfl
      · rw [if_neg h1]
        by_cases h2 : (2 : ℚ)/5 ≤ r ∧ r < 7/10
        · rw [if_pos h2]
          have hno : ¬ (r < 2/5) := by intro hc; linarith [h2.1]
          exact (decide_eq_false hno).trans rfl
        · rw [if_neg h2]
          have hyes : r < 2/5 :=
            lt_of_not_ge (fun hge => h2 ⟨hge, lt_of_not_ge h1⟩)
          exact (decide_eq_true hyes).trans rfl
    rw [List.filter_congr (fun r _ => e1 r), List.filter_congr (fun r _ => e2 r),
        List.filter_congr (fun r _ => e3 r)]
  · simp [getDifficultyDistribution, c9trajs, c9anal, uniques, uniquesAux,
          mergedIsSuccess, lookupAnalysis]
    norm_num
  · unfold specTier
    rw [if_pos (by norm_num)]

/-! ## Claim C3 -/

/-- The record of the claim: `trajectory_id="a-b-0-0-0"`, `tree_id=3`,
`data_id="a"`, `training_id="b"`, epoch/iteration/sample 0. -/
def c3rec : PyRecord :=
  { trajectory_id := some "a-b-0-0-0", data_id := some "a",
    training_id := some "b", epoch_id := some 0, iteration_id := some 0,
    sample_id := some 0, tree_id := some 3 }

/-- The same record with a six-segment id whose last segment is not the tree id. -/
def c3rec6 : PyRecord := { c3rec with trajectory_id := some "a-b-0-0-0-0" }

theorem synthesizeTask_tid (r : PyRecord) :
    (synthesizeTask r).trajectory_id = r.trajectory_id := by
  unfold synthesizeTask
  repeat' split
  all_goals rfl

theorem fallbackResReward_tid (r : PyRecord) :
    (fallbackResReward r).trajectory_id = r.trajectory_id := by
  unfold fallbackResReward
  repeat' split
  all_goals rfl

theorem resolveReward_tid (r : PyRecord) :
    (resolveReward r).trajectory_id = r.trajectory_id := by
  unfold resolveReward
  dsimp only
  repeat' split
  all_goals first
    | rfl
    | exact fallbackResReward_tid r

theorem normalizeFlat_tid (r : PyRecord) :
    (normalizeFlat r).trajectory_id = (repairTrajectoryId r).trajectory_id := by
  unfold normalizeFlat setDefaults
  rw [resolveReward_tid, synthesizeTask_tid]

/-- Counterexample to C3 as stated: normalizing the claim's record leaves its
five-segment `trajectory_id` unchanged — it is not rewritten to
`"a-b-0-0-0-3"`, because the repair applies only to ids with at least six
dash-segments. -/
theorem C3_counterexample :
    (normalizeFlat c3rec).trajectory_id = some "a-b-0-0-0" ∧
    (normalizeFlat c3rec).trajectory_id ≠ some "a-b-0-0-0-3" ∧
    (splitDash "a-b-0-0-0").length = 5 := by
  refine ⟨by decide, ?_, by decide⟩
  intro h
  rw [show (normalizeFlat c3rec).trajectory_id = some "a-b-0-0-0" by decide] at h
  simp at h

/-- Claim C3 (amended): the id is rebuilt to
`{data_id}-{training_id}-{epoch_id}-{iteration_id}-{sample_id}-{tree_id}`
exactly when it has at least 6 dash-segments whose last differs from
`str(tree_id)`; the claim's five-segment id `"a-b-0-0-0"` is left unchanged,
while the six-segment id `"a-b-0-0-0-0"` with `tree_id=3` is rewritten to
`"a-b-0-0-0-3"`. -/
theorem C3_id_repair_amended :
    (∀ (r : PyRecord) (tid : String) (tree : Int),
       r.trajectory_id = some tid → r.tree_id = some tree →
       (normalizeFlat r).trajectory_id =
         some (if (splitDash tid).length ≥ 6 ∧
                  (splitDash tid).getLast? ≠ some (toString tree)
               then rebuildId r (toString tree) else tid)) ∧
    (normalizeFlat c3rec).trajectory_id = some "a-b-0-0-0" ∧
    (normalizeFlat c3rec6).trajectory_id = some "a-b-0-0-0-3" := by
  refine ⟨?_, by decide, by decide⟩
  intro r tid tree h1 h2
  rw [normalizeFlat_tid]
  unfold repairTrajectoryId
  rw [h1, h2]
  dsimp only
  by_cases hc : (splitDash tid).length ≥ 6 ∧
      (splitDash tid).getLast? ≠ some (toString tree)
  · rw [if_pos hc, if_pos hc]
  · rw [if_neg hc, if_neg hc]
    exact h1

/-- Witness for C3 (amended) at the claim's concrete record. -/
theorem C3_witness :
    (normalizeFlat c3rec).trajectory_id =
      some (if (splitDash "a-b-0-0-0").length ≥ 6 ∧
               (splitDash "a-b-0-0-0").getLast? ≠ some (toString (3 : Int))
            then rebuildId c3rec (toString (3 : Int)) else "a-b-0-0-0") :=
  C3_id_repair_amended.1 c3rec "a-b-0-0-0" 3 rfl rfl

/-! ## Claim C6 -/

/-- A previously-unknown flat record. -/
def c6rec : PyRecord := { trajectory_id := some "t1", data_id := some "d" }

/-- A record that passes `validate_trajectory` but fails the pydantic
construction: its `chat_completions` has two elements whose second is not a
user message, so the task-synthesis step leaves `task` missing. -/
def c6taskless : PyRecord :=
  { trajectory_id := some "t2", data_id := some "d",
    chat_completions := some [⟨some "system", some "s"⟩, ⟨some "assistant", some "a"⟩] }

/-- One step of the import loop, summarized for records that validate and
construct: `existing`, `failed` and `errors` are untouched; a snapshot hit
increments only `skipped`; otherwise the accepted record raises
`imported + |batch|` by one (whether or not the batch flushes). -/
theorem processJsonObject_spec (st : ImportState) (o : PyRecord)
    (hv : validateTrajectory (normalizeFlat o) = true)
    (hcon : trajectoryConstructs (normalizeFlat o) = true) :
    (processJsonObject false st o).existing = st.existing ∧
    (processJsonObject false st o).failed = st.failed ∧
    (processJsonObject false st o).errors = st.errors ∧
    (if st.existing.contains (optStr (normalizeFlat o).trajectory_id)
     then (processJsonObject false st o).skipped = st.skipped + 1 ∧
          (processJsonObject false st o).imported +
            (processJsonObject false st o).batch.length =
            st.imported + st.batch.length
     else (processJsonObject false st o).skipped = st.skipped ∧
          (processJsonObject false st o).imported +
            (processJsonObject false st o).batch.length =
            st.imported + st.batch.length + 1) := by
  unfold processJsonObject
  rw [if_neg (by simp [hv])]
  by_cases hc : st.existing.contains (optStr (normalizeFlat o).trajectory_id)
  · rw [if_pos hc, if_pos ⟨by decide, hc⟩]
    exact ⟨rfl, rfl, rfl, rfl, rfl⟩
  · rw [if_neg hc, if_neg (fun hcc => hc hcc.2), if_neg (not_not_intro hcon)]
    by_cases hb : (st.batch ++ [normalizeFlat o]).length ≥ BATCH_SIZE
    · rw [if_pos hb]
      refine ⟨rfl, rfl, rfl, rfl, ?_⟩
      simp
      omega
    · rw [if_neg hb]
      refine ⟨rfl, rfl, rfl, rfl, ?_⟩
      simp
      omega

/-- The fold of the import loop, relative to an arbitrary starting state,
over records that validate and construct. -/
theorem importFold_spec (existing : List String) :
    ∀ (objs : List PyRecord) (st : ImportState), st.existing = existing →
      (∀ o ∈ objs, validateTrajectory (normalizeFlat o) = true ∧
        trajectoryConstructs (normalizeFlat o) = true) →
      (objs.foldl (processJsonObject false) st).existing = existing ∧
      (objs.foldl (processJsonObject false) st).imported +
        (objs.foldl (processJsonObject false) st).batch.length =
        st.imported + st.batch.length +
          (objs.filter (fun o =>
            ! existing.contains (optStr (normalizeFlat o).trajectory_id))).length ∧
      (objs.foldl (processJsonObject false) st).skipped =
        st.skipped +
          (objs.filter (fun o =>
            existing.contains (optStr (normalizeFlat o).trajectory_id))).length ∧
      (objs.foldl (processJsonObject false) st).failed = st.failed ∧
      (objs.foldl (processJsonObject false) st).errors = st.errors := by
  intro objs
  induction objs with
  | nil => intro st hex _; simp [hex]
  | cons o t ih =>
    intro st hex hval
    obtain ⟨hvo, hco⟩ := hval o (by simp)
    obtain ⟨he, hf, herr, hcond⟩ := processJsonObject_spec st o hvo hco
    obtain ⟨ie, ii, is, iff2, ierr⟩ := ih (processJsonObject false st o) (he.trans hex)
      (fun x hx => hval x (by simp [hx]))
    rw [hex] at hcond
    by_cases hc : existing.contains (optStr (normalizeFlat o).trajectory_id) = true
    · rw [if_pos hc] at hcond
      have hm : optStr (normalizeFlat o).trajectory_id ∈ existing := by simpa using hc
      refine ⟨ie, ?_, ?_, ?_, ?_⟩
      · simp only [List.foldl_cons]
        simp [List.filter_cons, hm] at ii hcond ⊢
        omega
      · simp only [List.foldl_cons]
        simp [List.filter_cons, hm] at is hcond ⊢
        omega
      · simp only [List.foldl_cons]
        rw [iff2, hf]
      · simp only [List.foldl_cons]
        rw [ierr, herr]
    · have hcf : existing.contains (optStr (normalizeFlat o).trajectory_id) = false :=
        Bool.eq_false_iff.mpr hc
      rw [if_neg hc] at hcond
      have hm : optStr (normalizeFlat o).trajectory_id ∉ existing := by simpa using hcf
      refine ⟨ie, ?_, ?_, ?_, ?_⟩
      · simp only [List.foldl_cons]
        simp [List.filter_cons, hm] at ii hcond ⊢
        omega
      · simp only [List.foldl_cons]
        simp [List.filter_cons, hm] at is hcond ⊢
        omega
      · simp only [List.foldl_cons]
        rw [iff2, hf]
      · simp only [List.foldl_cons]
        rw [ierr, herr]

/-- Counterexample to C6 as stated: with an empty store snapshot, a file
holding the same previously-unknown id twice imports it twice — the run has
no in-run seen-set, so the second occurrence is neither skipped nor
rejected. -/
theorem C6_counterexample :
    (runJsonlImport [] [c6rec, c6rec]).imported = 2 ∧
    (runJsonlImport [] [c6rec, c6rec]).skipped = 0 := by
  refine ⟨by decide, by decide⟩

/-- Claim C6 (amended): each normalized candidate's id is checked only
against the `ExistingIdSet` snapshot loaded at run start; snapshot hits
increment the skip counter and produce no error, and — for records that
pass validation and the `Trajectory(**traj_data)` construction — every
non-hit is imported, so an id in the snapshot is skipped every time it
appears, and a previously-unknown id occurring twice in the same file is
imported twice.  A record that validates but fails construction (missing
`task` after the synthesis gap) is instead counted failed with an error and
imports nothing. -/
theorem C6_dedup_amended :
    (∀ (existing : List String) (objs : List PyRecord),
       (∀ o ∈ objs, validateTrajectory (normalizeFlat o) = true ∧
         trajectoryConstructs (normalizeFlat o) = true) →
       (runJsonlImport existing objs).imported =
         (objs.filter (fun o =>
           ! existing.contains (optStr (normalizeFlat o).trajectory_id))).length ∧
       (runJsonlImport existing objs).skipped =
         (objs.filter (fun o =>
           existing.contains (optStr (normalizeFlat o).trajectory_id))).length ∧
       (runJsonlImport existing objs).failed = 0 ∧
       (runJsonlImport existing objs).errors = []) ∧
    (runJsonlImport [] [c6rec, c6rec]).imported = 2 ∧
    (runJsonlImport ["t1"] [c6rec]).skipped = 1 ∧
    (runJsonlImport ["t1"] [c6rec]).errors = [] ∧
    validateTrajectory (normalizeFlat c6taskless) = true ∧
    trajectoryConstructs (normalizeFlat c6taskless) = false ∧
    (runJsonlImport [] [c6taskless]).failed = 1 ∧
    (runJsonlImport [] [c6taskless]).imported = 0 ∧
    (runJsonlImport [] [c6taskless]).errors = ["trajectory construction failed"] := by
  refine ⟨?_, by decide, by decide, by decide, by decide, by decide, by decide,
          by decide, by decide⟩
  intro existing objs hval
  obtain ⟨he, hi, hs, hf, herr⟩ :=
    importFold_spec existing objs ⟨existing, [], 0, 0, 0, []⟩ rfl hval
  dsimp only at hi hs hf herr
  simp only [List.length_nil] at hi
  unfold runJsonlImport
  by_cases hb : (objs.foldl (processJsonObject false)
      ⟨existing, [], 0, 0, 0, []⟩).batch.length > 0
  · rw [if_pos hb]
    dsimp only
    exact ⟨by omega, by omega, by omega, herr⟩
  · rw [if_neg hb]
    exact ⟨by omega, by omega, by omega, herr⟩

/-- Witness for C6 (amended) at a two-element file against an empty snapshot. -/
theorem C6_witness :
    (runJsonlImport [] [c6rec, c6rec]).imported =
      (([c6rec, c6rec]).filter (fun o =>
        ! ([] : List String).contains (optStr (normalizeFlat o).trajectory_id))).length :=
  (C6_dedup_amended.1 [] [c6rec, c6rec] (by decide)).1

/-! ## Claim C7 -/

/-- The buffer `\x7b"a":"\\"\x7d\x7b"\x7d \x7b"b":2\x7d`: a record whose string
value holds an escaped quote and both literal brace characters, followed by a
second record. -/
def c7buf : List Char := "\x7b\"a\":\"\\\"\x7d\x7b\"\x7d \x7b\"b\":2\x7d".data

/-- The decoded first record of `c7buf`. -/
def c7obj : J := .jobj [("a".data, .jstr ['"', jsonClose, jsonOpen])]

/-- The buffer contents after the first record of `c7buf` is extracted. -/
def c7rest : List Char := " \x7b\"b\":2\x7d".data

/-- Claim C7: the scan state machine never changes the brace depth inside a
string; an escaped character (in particular a quote after a backslash) is
skipped outright, leaving the string open; the depth changes only at a brace
character outside a string with no pending escape; and on the concrete
buffer whose first record holds literal braces and an escaped quote inside a
string value, `try_parse_buffer` yields exactly that record, with the
boundary found after it. -/
theorem C7_string_safety :
    (∀ (st : ScanSt) (i : Nat) (c : Char), st.inString = true →
       (stepState st i c).braceCount = st.braceCount) ∧
    (∀ (st : ScanSt) (i : Nat) (c : Char), st.escapeNext = true →
       stepState st i c = { st with escapeNext := false }) ∧
    (∀ (st : ScanSt) (i : Nat) (c : Char),
       (stepState st i c).braceCount ≠ st.braceCount →
       st.inString = false ∧ st.escapeNext = false ∧ (c = jsonOpen ∨ c = jsonClose)) ∧
    tryParseBuffer jloadsMini c7buf = .found c7obj c7rest := by
  refine ⟨?_, ?_, ?_, rfl⟩
  · intro st i c h
    unfold stepState
    by_cases he : st.escapeNext
    · rw [if_pos he]
    · rw [if_neg he]
      by_cases hb : c = '\\' ∧ st.inString
      · rw [if_pos hb]
      · rw [if_neg hb]
        by_cases hq1 : c = '"' ∧ ¬ st.inString
        · exact absurd h (by simp [hq1.2])
        · rw [if_neg hq1]
          by_cases hq2 : c = '"' ∧ st.inString
          · rw [if_pos hq2]
          · rw [if_neg hq2, if_neg (by simp [h])]
  · intro st i c h
    unfold stepState
    rw [if_pos h]
  · intro st i c h
    unfold stepState at h
    by_cases he : st.escapeNext
    · rw [if_pos he] at h; exact absurd rfl h
    · rw [if_neg he] at h
      by_cases hb : c = '\\' ∧ st.inString
      · rw [if_pos hb] at h; exact absurd rfl h
      · rw [if_neg hb] at h
        by_cases hq1 : c = '"' ∧ ¬ st.inString
        · rw [if_pos hq1] at h; exact absurd rfl h
        · rw [if_neg hq1] at h
          by_cases hq2 : c = '"' ∧ st.inString
          · rw [if_pos hq2] at h; exact absurd rfl h
          · rw [if_neg hq2] at h
            by_cases hs : st.inString
            · rw [if_neg (by simp [hs])] at h; exact absurd rfl h
            · rw [if_pos (by simp [hs])] at h
              refine ⟨by simpa using hs, by simpa using he, ?_⟩
              by_cases ho : c = jsonOpen
              · exact Or.inl ho
              · rw [if_neg ho] at h
                by_cases hcl : c = jsonClose
                · exact Or.inr hcl
                · rw [if_neg hcl] at h; exact absurd rfl h

/-- Witness for C7 at concrete scanner states: a brace inside a string
leaves the depth unchanged; an escaped quote is skipped with the string
still open; and a state whose depth does change was outside a string with no
pending escape, at a brace. -/
theorem C7_witness :
    (stepState ⟨1, true, false, 0⟩ 8 jsonClose).braceCount = (1 : Int) ∧
    stepState ⟨1, true, true, 0⟩ 7 '"' = ⟨1, true, false, 0⟩ ∧
    ((⟨0, false, false, -1⟩ : ScanSt).inString = false ∧
     (⟨0, false, false, -1⟩ : ScanSt).escapeNext = false ∧
     (jsonOpen = jsonOpen ∨ jsonOpen = jsonClose)) :=
  ⟨C7_string_safety.1 ⟨1, true, false, 0⟩ 8 jsonClose rfl,
   C7_string_safety.2.1 ⟨1, true, true, 0⟩ 7 '"' rfl,
   C7_string_safety.2.2.1 ⟨0, false, false, -1⟩ 0 jsonOpen (by decide)⟩

/-! ## Claim C8 -/

theorem stripChars_length_le (l : List Char) : (stripChars l).length ≤ l.length := by
  unfold stripChars
  calc (((l.dropWhile Char.isWhitespace).reverse.dropWhile
          Char.isWhitespace).reverse).length
      = ((l.dropWhile Char.isWhitespace).reverse.dropWhile
          Char.isWhitespace).length := List.length_reverse _
    _ ≤ (l.dropWhile Char.isWhitespace).reverse.length :=
        (List.dropWhile_sublist _).length_le
    _ = (l.dropWhile Char.isWhitespace).length := List.length_reverse _
    _ ≤ l.length := (List.dropWhile_sublist _).length_le

/-- A successful scan always hands back a strict suffix `buffer[j+1:]`. -/
theorem scanLoop_found_drop {Jv : Type} (jloads : List Char → Option Jv)
    (buffer : List Char) :
    ∀ (rs : List Char) (i : Nat) (st : ScanSt) (o : Jv) (rest : List Char),
      scanLoop jloads buffer i rs st = .found o rest →
      ∃ j : Nat, rest = buffer.drop (j + 1) := by
  intro rs
  induction rs with
  | nil => intro i st o rest h; exact absurd h (by simp [scanLoop])
  | cons c t ih =>
    intro i st o rest h
    unfold scanLoop at h
    by_cases hx : scanExit st c = true
    · rw [if_pos hx] at h
      cases hj : jloads (bufSegment buffer st.objStart i) with
      | some v => rw [hj] at h; cases h; exact ⟨i, rfl⟩
      | none => rw [hj] at h; exact ih (i + 1) (stepState st i c) o rest h
    · rw [if_neg hx] at h
      exact ih (i + 1) (stepState st i c) o rest h

/-- A successful `try_parse_buffer` strictly shrinks the buffer. -/
theorem tryParseBuffer_found_lt {Jv : Type} (jloads : List Char → Option Jv)
    (buf : List Char) (o : Jv) (rest : List Char) :
    tryParseBuffer jloads buf = .found o rest → rest.length < buf.length := by
  intro h
  unfold tryParseBuffer at h
  by_cases hempty : (stripChars buf).isEmpty = true
  · rw [if_pos hempty] at h; exact absurd h (by simp)
  · rw [if_neg hempty] at h
    have hpos : 0 < (stripChars buf).length := by
      cases hsc : stripChars buf with
      | nil => rw [hsc] at hempty; exact absurd rfl hempty
      | cons a l => simp [hsc]
    have hle := stripChars_length_le buf
    cases hj : jloads (stripChars buf) with
    | some v =>
      rw [hj] at h; cases h
      simpa using Nat.lt_of_lt_of_le hpos hle
    | none =>
      rw [hj] at h
      obtain ⟨j, hj2⟩ :=
        scanLoop_found_drop jloads (stripChars buf) (stripChars buf) 0 scanInit o rest h
      have hlen : rest.length = (stripChars buf).length - (j + 1) := by
        rw [hj2, List.length_drop]
      omega

/-- With fuel exceeding the buffer length, the drain loop stops only on a
buffer from which no further object can be extracted. -/
theorem drainBuffer_post {Jv : Type} (jloads : List Char → Option Jv) :
    ∀ (fuel : Nat) (buf : List Char) (acc : List Jv), buf.length < fuel →
      ∀ (o : Jv) (rest : List Char),
        tryParseBuffer jloads (drainBuffer jloads fuel buf acc).1 ≠ .found o rest := by
  intro fuel
  induction fuel with
  | zero => intro buf acc h; omega
  | succ f ih =>
    intro buf acc h o rest
    unfold drainBuffer
    cases ht : tryParseBuffer jloads buf with
    | empty =>
      intro hc
      rw [ht] at hc
      exact absurd hc (by simp)
    | incomplete =>
      intro hc
      rw [ht] at hc
      exact absurd hc (by simp)
    | found v r =>
      have hlt := tryParseBuffer_found_lt jloads buf v r ht
      exact ih r (acc ++ [v]) (by omega) o rest

/-- The read loop preserves the no-extractable-object property of its final
buffer. -/
theorem feedLines_post {Jv : Type} (jloads : List Char → Option Jv) :
    ∀ (lns : List (List Char)) (buf : List Char) (acc : List Jv),
      (∀ (o : Jv) (rest : List Char), tryParseBuffer jloads buf ≠ .found o rest) →
      ∀ (o : Jv) (rest : List Char),
        tryParseBuffer jloads (feedLines jloads lns buf acc).1 ≠ .found o rest := by
  intro lns
  induction lns with
  | nil => intro buf acc h; exact h
  | cons line t ih =>
    intro buf acc h
    unfold feedLines
    exact ih _ _ (drainBuffer_post jloads (buf.length + line.length + 1)
      (buf ++ line) acc (by simp [List.length_append]))

/-- The scan never reports an empty buffer. -/
theorem scanLoop_ne_empty {Jv : Type} (jloads : List Char → Option Jv)
    (buffer : List Char) :
    ∀ (rs : List Char) (i : Nat) (st : ScanSt),
      scanLoop jloads buffer i rs st ≠ .empty := by
  intro rs
  induction rs with
  | nil => intro i st h; exact absurd h (by simp [scanLoop])
  | cons c t ih =>
    intro i st h
    unfold scanLoop at h
    by_cases hx : scanExit st c = true
    · rw [if_pos hx] at h
      cases hj : jloads (bufSegment buffer st.objStart i) with
      | some v => rw [hj] at h; exact absurd h (by simp)
      | none => rw [hj] at h; exact ih (i + 1) (stepState st i c) h
    · rw [if_neg hx] at h
      exact ih (i + 1) (stepState st i c) h

theorem tryParseBuffer_empty_strip {Jv : Type} (jloads : List Char → Option Jv)
    (buf : List Char) :
    tryParseBuffer jloads buf = .empty → (stripChars buf).isEmpty = true := by
  intro h
  unfold tryParseBuffer at h
  by_cases hempty : (stripChars buf).isEmpty = true
  · exact hempty
  · rw [if_neg hempty] at h
    cases hj : jloads (stripChars buf) with
    | some v => rw [hj] at h; exact absurd h (by simp)
    | none =>
      rw [hj] at h
      exact absurd h (scanLoop_ne_empty jloads (stripChars buf) (stripChars buf) 0 scanInit)

/-- Claim C8: for every decoder, truthiness predicate and input stream, the
end-of-stream handling of `import_from_jsonl` never drops residual data
silently: either the final buffer is whitespace-only, or the result's error
list carries the terminal parse error, whose text is the line number plus a
bounded (100-character) prefix of the message built from the first 200
characters of the residual. -/
theorem C8_residual_reported {Jv : Type} (jloads : List Char → Option Jv)
    (truthy : Jv → Bool) (lns : List (List Char)) :
    (stripChars (runExtract jloads truthy lns).residual).isEmpty = true ∨
    (runExtract jloads truthy lns).errors =
      ["Debug info: 1 parse errors",
       "Line " ++ toString lns.length ++ ": " ++
         takeStr 100 (terminalErrorMsg (runExtract jloads truthy lns).residual)] := by
  unfold runExtract
  by_cases hempty : (stripChars (feedLines jloads lns [] []).1).isEmpty = true
  · left
    rw [if_pos hempty]
    exact hempty
  · right
    rw [if_neg hempty]
    have hinit : ∀ (o : Jv) (rest : List Char),
        tryParseBuffer jloads ([] : List Char) ≠ .found o rest := by
      intro o rest hc
      rw [show tryParseBuffer jloads ([] : List Char) = .empty from rfl] at hc
      exact absurd hc (by simp)
    have hnf := feedLines_post jloads lns [] [] hinit
    cases ht : tryParseBuffer jloads (feedLines jloads lns [] []).1 with
    | empty => exact absurd (tryParseBuffer_empty_strip jloads _ ht) hempty
    | found o rest => exact absurd ht (hnf o rest)
    | incomplete => rfl
